import Mathlib

/-!
# Verification of JnbRelay (src/main.go)

Shallow embedding of the request/response pipeline of the JnbRelay
single-hop TLS-terminating reverse proxy:

* `director`        embeds `proxy.Director` (src/main.go lines 103-112);
* `modifyResponse`  embeds `proxy.ModifyResponse` (src/main.go lines 115-139);
* `errorHandler`    embeds `proxy.ErrorHandler` (src/main.go lines 142-145);
* `filepathExt`     embeds Go's `path/filepath.Ext` for Unix paths;
* `handleExchange`  models the exchange flow of the standard-library engine
  `net/http/httputil.ReverseProxy.ServeHTTP` that wires the three hooks
  together: one Director application, one transport round trip (no retry),
  `ModifyResponse` on success, `ErrorHandler` on failure.

Go's `http.Header` (`map[string][]string` with canonical keys) is embedded
as a flat association list of (name, value) pairs: `Header.Add k v` appends
a pair, `Header.Set k v` drops every pair for `k` and appends one, and
`Header.Get k` reads the first value for `k`.  All header names appearing
in the program are already in canonical MIME form.
-/

namespace JnbRelay

/-- Go `http.Header`, flattened to an ordered list of (name, value) pairs.
The order of values of one name is the order of the Go value slice. -/
def Header := List (String × String)
deriving DecidableEq

instance : Append Header := ⟨List.append⟩

/-- The value slice `h[key]` of a Go header map. -/
def headerValues (h : Header) (key : String) : List String :=
  (h.filter (fun e => e.1 == key)).map (fun e => e.2)

/-- Go `http.Header.Get`: first value for the key, `""` when absent. -/
def headerGet (h : Header) (key : String) : String :=
  (headerValues h key).headD ""

/-- Go `http.Header.Add`: `h[key] = append(h[key], value)`. -/
def headerAdd (h : Header) (key value : String) : Header :=
  List.append h [(key, value)]

/-- Go `http.Header.Set`: `h[key] = []string\x7bvalue\x7d`. -/
def headerSet (h : Header) (key value : String) : Header :=
  List.append (h.filter (fun e => !(e.1 == key))) [(key, value)]

/-- The fields of Go `net/url.URL` that the program touches. -/
structure URL where
  scheme : String
  host : String
  path : String
  rawQuery : String
deriving DecidableEq

/-- The fields of Go `net/http.Request` that the program touches. -/
structure Request where
  method : String
  url : URL
  host : String
  remoteAddr : String
  header : Header
  body : String
deriving DecidableEq

/-- The fields of Go `net/http.Response` that the program touches.
`request` is `resp.Request`, the request this response answers. -/
structure Response where
  status : Nat
  header : Header
  request : Request
  body : String
deriving DecidableEq

/-- The upstream target URL: `target` in `main`, parsed once from
`fmt.Sprintf("http://%s:%d", config.ProxyHost, config.ProxyPort)`. -/
structure Target where
  scheme : String
  host : String
deriving DecidableEq

/-- `url.Parse` applied to the well-formed authority URL
`"http://" ++ proxyHost ++ ":" ++ proxyPort` built in `main`
(src/main.go lines 92-97): scheme `"http"`, host `proxyHost:proxyPort`. -/
def mkTarget (proxyHost : String) (proxyPort : Nat) : Target :=
  { scheme := "http", host := proxyHost ++ ":" ++ toString proxyPort }

/-- `proxy.Director` (src/main.go lines 103-112).  Each `let` mirrors one Go
statement, in source order; in particular `req.Host` is overwritten with
`target.Host` before `req.Header.Add("X-Forwarded-Host", req.Host)` reads
it back. -/
def director (target : Target) (req : Request) : Request :=
  let req := { req with url := { req.url with scheme := target.scheme } }
  let req := { req with url := { req.url with host := target.host } }
  let req := { req with host := target.host }
  let req := { req with header := headerAdd req.header "X-Forwarded-Host" req.host }
  let req := { req with header := headerAdd req.header "X-Forwarded-Proto" req.url.scheme }
  let req := { req with header := headerAdd req.header "X-Real-IP" req.remoteAddr }
  req

/-- Helper for `filepathExt`: walks the reversed character list of the path
(`acc` holds the characters already passed, in original order), mirroring
Go's backwards loop `for i := len(path)-1; i >= 0 && !os.IsPathSeparator(path[i]); i--`. -/
def extGo : List Char → List Char → List Char
  | _, [] => []
  | acc, c :: rest =>
    if c = '/' then []
    else if c = '.' then '.' :: acc
    else extGo (c :: acc) rest

/-- Go `path/filepath.Ext` on Unix (`os.IsPathSeparator` is `== '/'`):
the suffix beginning at the final dot in the final slash-separated element
of `path`, empty if that element has no dot. -/
def filepathExt (path : String) : String :=
  String.mk (extGo [] path.data.reverse)

/-- `proxy.ModifyResponse` (src/main.go lines 115-139).  The second
component is the Go return value: `none` embeds `return nil`.
`mimeTable` stands for `mime.TypeByExtension`, whose table is
environment-dependent (built-ins plus the system mime database); `""`
embeds its empty-string "no mapping known" result. -/
def modifyResponse (mimeTable : String → String) (resp : Response) :
    Response × Option String :=
  let path := resp.request.url.path
  let ext := filepathExt path
  if ext ≠ "" then
    let correctMimeType := mimeTable ext
    if correctMimeType ≠ "" then
      let currentContentType := headerGet resp.header "Content-Type"
      if currentContentType = "" ∨ currentContentType = "text/plain" ∨
          currentContentType = "application/octet-stream" then
        ({ resp with header := headerSet resp.header "Content-Type" correctMimeType },
          none)
      else (resp, none)
    else (resp, none)
  else (resp, none)

/-- The client-visible side of Go's `http.ResponseWriter`: the status
written by `WriteHeader` (if any) and the bytes written by `Write`. -/
structure ResponseWriter where
  status : Option Nat
  body : String
deriving DecidableEq

/-- `proxy.ErrorHandler` (src/main.go lines 142-145): logs and calls
`w.WriteHeader(http.StatusBadGateway)`; it never writes a body. -/
def errorHandler (w : ResponseWriter) (_req : Request) (_err : String) :
    ResponseWriter :=
  { w with status := some 502 }

/-- What the original caller receives from one exchange, plus the number of
upstream round-trip attempts made for it. -/
structure ClientResult where
  status : Nat
  header : Header
  body : String
  attempts : Nat
deriving DecidableEq

/-- The exchange flow of `net/http/httputil.ReverseProxy.ServeHTTP`
(standard library, not part of this repository) specialised to the hooks
installed in `main`: apply `director`, perform exactly one transport round
trip (`transport` abstracts `http.Transport.RoundTrip`; `Except.error`
embeds a transport error), then `modifyResponse` on success — falling back
to `errorHandler` if it returned an error — or `errorHandler` on transport
failure.  There is no retry path. -/
def handleExchange (mimeTable : String → String) (target : Target)
    (transport : Request → Except String Response) (req : Request) :
    ClientResult :=
  let outReq := director target req
  match transport outReq with
  | Except.ok resp =>
    match modifyResponse mimeTable resp with
    | (resp2, none) =>
      { status := resp2.status, header := resp2.header,
        body := resp2.body, attempts := 1 }
    | (_, some e) =>
      let w := errorHandler { status := none, body := "" } req e
      { status := w.status.getD 200, header := [], body := w.body, attempts := 1 }
  | Except.error e =>
    let w := errorHandler { status := none, body := "" } req e
    { status := w.status.getD 200, header := [], body := w.body, attempts := 1 }

/-! ## Header lemmas -/

theorem headerValues_add_self (h : Header) (key v : String) :
    headerValues (headerAdd h key v) key = headerValues h key ++ [v] := by
  simp [headerValues, headerAdd, List.append_eq, List.filter_append]

theorem headerValues_add_of_ne (h : Header) (key key2 v : String)
    (hne : key2 ≠ key) :
    headerValues (headerAdd h key v) key2 = headerValues h key2 := by
  simp [headerValues, headerAdd, List.append_eq, List.filter_append,
    beq_eq_false_iff_ne.mpr (Ne.symm hne)]

theorem headerGet_set_self (h : Header) (key v : String) :
    headerGet (headerSet h key v) key = v := by
  simp [headerGet, headerValues, headerSet, List.append_eq, List.filter_append,
    List.filter_filter]

/-- Shared helper: `modifyResponse` returns its input response unchanged
whenever any of the three guards of the source fails. -/
theorem modifyResponse_skip (mimeTable : String → String) (resp : Response)
    (h : filepathExt resp.request.url.path = "" ∨
         mimeTable (filepathExt resp.request.url.path) = "" ∨
         (headerGet resp.header "Content-Type" ≠ "" ∧
          headerGet resp.header "Content-Type" ≠ "text/plain" ∧
          headerGet resp.header "Content-Type" ≠ "application/octet-stream")) :
    (modifyResponse mimeTable resp).1 = resp := by
  by_cases hext : filepathExt resp.request.url.path ≠ ""
  · by_cases hmap : mimeTable (filepathExt resp.request.url.path) ≠ ""
    · rcases h with h | h | h
      · exact absurd h hext
      · exact absurd h hmap
      · simp only [modifyResponse]
        rw [if_pos hext, if_pos hmap,
          if_neg (by push_neg; exact ⟨h.1, h.2.1, h.2.2⟩)]
    · simp only [modifyResponse]
      rw [if_pos hext, if_neg hmap]
  · simp only [modifyResponse]
    rw [if_neg hext]

/-! ## Concrete instances used by code-bug demonstrations and witnesses -/

/-- A typical inbound request: the client asked for host `example.com`. -/
def reqEx : Request :=
  { method := "GET",
    url := { scheme := "https", host := "example.com", path := "/index.html",
             rawQuery := "" },
    host := "example.com",
    remoteAddr := "203.0.113.7:55123",
    header := [],
    body := "" }

/-- A concrete stand-in for the environment's `mime.TypeByExtension` table. -/
def mimeTableEx : String → String := fun e =>
  if e = ".js" then "text/javascript; charset=utf-8"
  else if e = ".json" then "application/json"
  else ""

/-- A transport whose upstream refuses the connection. -/
def transportDown : Request → Except String Response :=
  fun _ => Except.error "connection refused"

/-! ## Claim theorems -/

/-- Claim C1 (code bug demonstration): the Director overwrites `req.Host`
with the upstream target host before `req.Header.Add("X-Forwarded-Host",
req.Host)` reads it, so the appended `X-Forwarded-Host` value is the
upstream target's host `127.0.0.1:8443`, not the original request's
resolved host `example.com`, contradicting the claim and the spec. -/
theorem director_xfh_gets_target_host :
    headerValues (director (mkTarget "127.0.0.1" 8443) reqEx).header
        "X-Forwarded-Host" = ["127.0.0.1:8443"] ∧
    reqEx.host = "example.com" ∧
    ("127.0.0.1:8443" : String) ≠ "example.com" :=
  ⟨rfl, rfl, by decide⟩

/-- Claim C2: after the Director runs, the outbound request's URL scheme is
the configured upstream scheme `"http"`, and both its URL host and its
`Host` field equal the configured `upstreamHost:upstreamPort`. -/
theorem director_targets_upstream (req : Request) (proxyHost : String)
    (proxyPort : Nat) :
    (director (mkTarget proxyHost proxyPort) req).url.scheme = "http" ∧
    (director (mkTarget proxyHost proxyPort) req).url.host =
      proxyHost ++ ":" ++ toString proxyPort ∧
    (director (mkTarget proxyHost proxyPort) req).host =
      proxyHost ++ ":" ++ toString proxyPort :=
  ⟨rfl, rfl, rfl⟩

/-- Claim C3: when the upstream Content-Type is empty, `text/plain` or
`application/octet-stream`, and the request path has an extension with a
known MIME mapping, the response rewriter overwrites Content-Type with the
mapped type. -/
theorem modifyResponse_fixes_generic_content_type (mimeTable : String → String)
    (resp : Response)
    (hext : filepathExt resp.request.url.path ≠ "")
    (hmap : mimeTable (filepathExt resp.request.url.path) ≠ "")
    (hgen : headerGet resp.header "Content-Type" = "" ∨
            headerGet resp.header "Content-Type" = "text/plain" ∨
            headerGet resp.header "Content-Type" = "application/octet-stream") :
    headerGet (modifyResponse mimeTable resp).1.header "Content-Type" =
      mimeTable (filepathExt resp.request.url.path) := by
  simp only [modifyResponse]
  rw [if_pos hext, if_pos hmap, if_pos hgen]
  exact headerGet_set_self resp.header "Content-Type" _

/-- A request for `/app.js`, and an upstream response declaring
`text/plain`: the C3 scenario from the spec. -/
def respJs : Response :=
  { status := 200,
    header := [("Content-Type", "text/plain")],
    request := { reqEx with
      url := { reqEx.url with path := "/app.js" } },
    body := "x" }

/-- Witness for C3: the `/app.js` response declared `text/plain` is
rewritten to the mapped javascript MIME type. -/
theorem modifyResponse_fixes_generic_content_type_witness :
    headerGet (modifyResponse mimeTableEx respJs).1.header "Content-Type" =
      mimeTableEx (filepathExt respJs.request.url.path) :=
  modifyResponse_fixes_generic_content_type mimeTableEx respJs
    (by decide) (by decide) (by decide)

/-- Claim C4: when the upstream Content-Type is anything other than empty,
`text/plain` or `application/octet-stream`, or the path extension yields no
MIME mapping, or the path has no extension, the rewriter returns the
response unchanged — in particular the Content-Type header is untouched. -/
theorem modifyResponse_leaves_specific_content_type (mimeTable : String → String)
    (resp : Response)
    (h : filepathExt resp.request.url.path = "" ∨
         mimeTable (filepathExt resp.request.url.path) = "" ∨
         (headerGet resp.header "Content-Type" ≠ "" ∧
          headerGet resp.header "Content-Type" ≠ "text/plain" ∧
          headerGet resp.header "Content-Type" ≠ "application/octet-stream")) :
    (modifyResponse mimeTable resp).1 = resp :=
  modifyResponse_skip mimeTable resp h

/-- A request for `/data.json` answered with a specific `application/json`
Content-Type: the C4 scenario from the spec. -/
def respJson : Response :=
  { status := 200,
    header := [("Content-Type", "application/json")],
    request := { reqEx with
      url := { reqEx.url with path := "/data.json" } },
    body := "ok" }

/-- Witness for C4: the `/data.json` response with `application/json` is
relayed unchanged even though `.json` has a MIME mapping. -/
theorem modifyResponse_leaves_specific_content_type_witness :
    (modifyResponse mimeTableEx respJson).1 = respJson :=
  modifyResponse_leaves_specific_content_type mimeTableEx respJson
    (Or.inr (Or.inr (by decide)))

/-- Claim C5: when the transport round trip for an exchange fails, the
caller receives status 502 with an empty body, after exactly one upstream
attempt (no retry). -/
theorem failed_exchange_gets_502 (mimeTable : String → String) (target : Target)
    (transport : Request → Except String Response) (req : Request) (e : String)
    (hfail : transport (director target req) = Except.error e) :
    handleExchange mimeTable target transport req =
      { status := 502, header := [], body := "", attempts := 1 } := by
  simp only [handleExchange, hfail]
  rfl

/-- Witness for C5: with an upstream that refuses every connection, the
client of a concrete exchange receives a bodyless 502 after one attempt. -/
theorem failed_exchange_gets_502_witness :
    handleExchange mimeTableEx (mkTarget "127.0.0.1" 8443) transportDown reqEx =
      { status := 502, header := [], body := "", attempts := 1 } :=
  failed_exchange_gets_502 mimeTableEx (mkTarget "127.0.0.1" 8443)
    transportDown reqEx "connection refused" rfl

/-- Claim C6: the Director appends to the three forwarding headers rather
than overwriting them: the value list of each header afterwards is the
inbound list with exactly one injected value appended, so every
client-supplied value is still present alongside the injected one. -/
theorem director_appends_forwarding_headers (target : Target) (req : Request) :
    headerValues (director target req).header "X-Forwarded-Host" =
      headerValues req.header "X-Forwarded-Host" ++ [target.host] ∧
    headerValues (director target req).header "X-Forwarded-Proto" =
      headerValues req.header "X-Forwarded-Proto" ++ [target.scheme] ∧
    headerValues (director target req).header "X-Real-IP" =
      headerValues req.header "X-Real-IP" ++ [req.remoteAddr] := by
  refine ⟨?_, ?_, ?_⟩
  · simp only [director]
    rw [headerValues_add_of_ne _ "X-Real-IP" "X-Forwarded-Host" _ (by decide),
        headerValues_add_of_ne _ "X-Forwarded-Proto" "X-Forwarded-Host" _
          (by decide),
        headerValues_add_self]
  · simp only [director]
    rw [headerValues_add_of_ne _ "X-Real-IP" "X-Forwarded-Proto" _ (by decide),
        headerValues_add_self,
        headerValues_add_of_ne _ "X-Forwarded-Host" "X-Forwarded-Proto" _
          (by decide)]
  · simp only [director]
    rw [headerValues_add_self,
        headerValues_add_of_ne _ "X-Forwarded-Proto" "X-Real-IP" _ (by decide),
        headerValues_add_of_ne _ "X-Forwarded-Host" "X-Real-IP" _ (by decide)]

/-- Claim C7: the Director changes only the URL scheme, URL host, `Host`
field and the three forwarding headers; the method, path, query string,
body, remote address and every other header are unchanged. -/
theorem director_frame (target : Target) (req : Request) (name : String)
    (h1 : name ≠ "X-Forwarded-Host") (h2 : name ≠ "X-Forwarded-Proto")
    (h3 : name ≠ "X-Real-IP") :
    (director target req).method = req.method ∧
    (director target req).url.path = req.url.path ∧
    (director target req).url.rawQuery = req.url.rawQuery ∧
    (director target req).body = req.body ∧
    (director target req).remoteAddr = req.remoteAddr ∧
    headerValues (director target req).header name =
      headerValues req.header name := by
  refine ⟨rfl, rfl, rfl, rfl, rfl, ?_⟩
  simp only [director]
  rw [headerValues_add_of_ne _ _ _ _ h3,
      headerValues_add_of_ne _ _ _ _ h2,
      headerValues_add_of_ne _ _ _ _ h1]

/-- Witness for C7: on a concrete exchange the Director leaves the method,
path, query, body, remote address and the `Accept` header untouched. -/
theorem director_frame_witness :
    (director (mkTarget "127.0.0.1" 8443) reqEx).method = reqEx.method ∧
    (director (mkTarget "127.0.0.1" 8443) reqEx).url.path = reqEx.url.path ∧
    (director (mkTarget "127.0.0.1" 8443) reqEx).url.rawQuery =
      reqEx.url.rawQuery ∧
    (director (mkTarget "127.0.0.1" 8443) reqEx).body = reqEx.body ∧
    (director (mkTarget "127.0.0.1" 8443) reqEx).remoteAddr =
      reqEx.remoteAddr ∧
    headerValues (director (mkTarget "127.0.0.1" 8443) reqEx).header "Accept" =
      headerValues reqEx.header "Accept" :=
  director_frame (mkTarget "127.0.0.1" 8443) reqEx "Accept"
    (by decide) (by decide) (by decide)

/-- Claim C8: the response rewriter never fails the exchange — its Go
return value is always `nil` (embedded as `none`), so the response,
modified or not, is always relayed (fail-open). -/
theorem modifyResponse_never_errors (mimeTable : String → String)
    (resp : Response) :
    (modifyResponse mimeTable resp).2 = none := by
  simp only [modifyResponse]
  split
  · split
    · split
      · rfl
      · rfl
    · rfl
  · rfl

/-- Claim C9: the generic-type test is exact string equality on the full
header value: a Content-Type of `text/plain; charset=utf-8` is never
treated as generic, so the response is returned unchanged no matter what
the path extension maps to. -/
theorem modifyResponse_ignores_parameterized_plain (mimeTable : String → String)
    (resp : Response)
    (hct : headerGet resp.header "Content-Type" = "text/plain; charset=utf-8") :
    (modifyResponse mimeTable resp).1 = resp :=
  modifyResponse_skip mimeTable resp
    (Or.inr (Or.inr ⟨by rw [hct]; decide, by rw [hct]; decide,
      by rw [hct]; decide⟩))

/-- The `/app.js` response of C3, but with a parameter-carrying plain
Content-Type. -/
def respJsCharset : Response :=
  { respJs with header := [("Content-Type", "text/plain; charset=utf-8")] }

/-- Witness for C9: a `/app.js` response declaring
`text/plain; charset=utf-8` keeps it, although `.js` has a MIME mapping. -/
theorem modifyResponse_ignores_parameterized_plain_witness :
    (modifyResponse mimeTableEx respJsCharset).1 = respJsCharset :=
  modifyResponse_ignores_parameterized_plain mimeTableEx respJsCharset
    (by decide)

/-- Claim C10: the value the Director appends to `X-Forwarded-Proto` is the
constant `"http"` — the rewritten upstream scheme — for every inbound
request, never `"https"`. -/
theorem director_forwarded_proto_is_http (req : Request) (proxyHost : String)
    (proxyPort : Nat) :
    headerValues (director (mkTarget proxyHost proxyPort) req).header
        "X-Forwarded-Proto" =
      headerValues req.header "X-Forwarded-Proto" ++ ["http"] := by
  simp only [director, mkTarget]
  rw [headerValues_add_of_ne _ "X-Real-IP" "X-Forwarded-Proto" _ (by decide),
      headerValues_add_self,
      headerValues_add_of_ne _ "X-Forwarded-Host" "X-Forwarded-Proto" _
        (by decide)]

end JnbRelay
